import Mathlib

/-!
Verification of the Docs-writer thesis-writing pipeline.

Shallow embedding of the repository's pipeline core:
* `src/crews/researcher.py` — research stage, minimum-source gate
  (`validate_total_research_output`);
* `src/crews/main.py` — `ThesisWritingFlow` state machine and the writer
  fan-out over outline sections;
* `src/crews/writer.py` — writing stage and its section-persistence protocol;
* `src/crews/tools/main.py` — `EnhancedPDFReaderTool` and
  `BrightDataWebUnlockerTool` fetch tools;
* `src/projects/models.py` — persisted `Project` status choices.

Python values that flow through the pipeline (JSON-decoded dicts, strings,
lists, `None`) are modelled by the inductive `Json`; Python exceptions are
modelled by explicit error values in `Except`, so a function that "never
raises" is one that always produces `.ok`.
-/

namespace DocsWriter

/-- A loosely-typed Python/JSON value, as produced by `json.loads` or by a
pydantic model dump.  `null` stands for Python `None`. -/
inductive Json where
  | null
  | bool (b : Bool)
  | num (n : Int)
  | str (s : String)
  | arr (xs : List Json)
  | obj (fields : List (String × Json))
  deriving Repr

/-- Python exceptions relevant to the research gate and the writer fan-out. -/
inductive PyErr where
  | keyError
  | typeError
  | jsonDecodeError
  deriving DecidableEq, Repr

/-- First binding of a key in a Python dict (insertion order, first match). -/
def lookupField : List (String × Json) → String → Option Json
  | [], _ => none
  | (k, v) :: rest, key => if k = key then some v else lookupField rest key

/-- Python subscript `j[key]`: `KeyError` when the key is absent,
`TypeError` when the value is not a dict. -/
def jsonSubscript (j : Json) (key : String) : Except PyErr Json :=
  match j with
  | .obj fields =>
    match lookupField fields key with
    | some v => .ok v
    | none => .error .keyError
  | _ => .error .typeError

/-- The integer a Python `<` comparison against an int literal sees:
ints compare as themselves, bools as 0/1, everything else raises. -/
def jsonAsIntLike : Json → Option Int
  | .num n => some n
  | .bool b => some (if b then 1 else 0)
  | _ => none

/-- Python `v < k` for an int literal `k`: `TypeError` on non-numeric `v`. -/
def pyLtConst (v : Json) (k : Int) : Except PyErr Bool :=
  match jsonAsIntLike v with
  | some n => .ok (decide (n < k))
  | none => .error .typeError

/-- Model of `validate_total_research_output` (src/crews/researcher.py, lines 50-61):
reads `result.json()["total_sources_found"]`, returns `False` when it is
below 10, `True` otherwise, and `False` (not an exception) when anything in
the extraction fails.  The argument models `result.json()`, which itself may
fail. -/
def validate_total_research_output (resultJson : Except PyErr Json) : Bool :=
  match resultJson >>= (fun j => jsonSubscript j "total_sources_found")
      >>= (fun v => pyLtConst v 10) with
  | .ok lt => if lt then false else true
  | .error _ => false

/-- C2: the minimum-source gate accepts exactly the outputs whose
`total_sources_found` reads as an integer value at least 10; any failure to
read the field yields `false` rather than an exception (the gate is a total
`Bool`-valued function), and the threshold 10 is the literal constant in the
source, not a parameter of the gate. -/
theorem c2_min_source_gate (r : Except PyErr Json) :
    validate_total_research_output r = true ↔
      ∃ j v n, r = .ok j ∧ jsonSubscript j "total_sources_found" = .ok v ∧
        jsonAsIntLike v = some n ∧ 10 ≤ n := by
  constructor
  · intro h
    cases r with
    | error e => simp [validate_total_research_output, Bind.bind, Except.bind] at h
    | ok j =>
      cases hsub : jsonSubscript j "total_sources_found" with
      | error e =>
        simp [validate_total_research_output, Bind.bind, Except.bind, hsub] at h
      | ok v =>
        cases hint : jsonAsIntLike v with
        | none =>
          simp [validate_total_research_output, Bind.bind, Except.bind, hsub,
            pyLtConst, hint] at h
        | some n =>
          refine ⟨j, v, n, rfl, hsub, hint, ?_⟩
          simp [validate_total_research_output, Bind.bind, Except.bind, hsub,
            pyLtConst, hint] at h
          by_contra hlt
          simp [Int.lt_iff_add_one_le] at hlt
          omega
  · rintro ⟨j, v, n, rfl, hsub, hint, hn⟩
    simp [validate_total_research_output, Bind.bind, Except.bind, hsub,
      pyLtConst, hint]
    omega

/-- C3 counterexample: a research output whose `total_sources_found` is 10
while its `sources` list is empty is accepted by the gate, although
`total_sources_found ≠ len(sources)` (10 ≠ 0): the gate never consults the
`sources` list. -/
theorem c3_counterexample :
    validate_total_research_output
        (.ok (.obj [("sources", .arr []), ("total_sources_found", .num 10)]))
      = true ∧
    jsonSubscript (.obj [("sources", .arr []), ("total_sources_found", .num 10)])
        "sources" = .ok (.arr []) ∧
    (List.length ([] : List Json) : Int) ≠ 10 := by
  refine ⟨rfl, rfl, by decide⟩

/-- C3 amended: the acceptance gate checks only `total_sources_found ≥ 10`;
it accepts a result for any `sources` list whatsoever, so results with
`total_sources_found ≠ len(sources)` can be accepted as final. -/
theorem c3_gate_ignores_sources (srcs : List Json) (rest : List (String × Json))
    (n : Int) (hn : 10 ≤ n) :
    validate_total_research_output
        (.ok (.obj (("sources", .arr srcs) :: ("total_sources_found", .num n) :: rest)))
      = true := by
  simp [validate_total_research_output, Bind.bind, Except.bind, jsonSubscript,
    lookupField, pyLtConst, jsonAsIntLike]
  omega

/-- Witness for `c3_gate_ignores_sources` at a concrete input. -/
theorem c3_gate_ignores_sources_witness :
    validate_total_research_output
        (.ok (.obj (("sources", .arr []) :: ("total_sources_found", .num 10) :: [])))
      = true :=
  c3_gate_ignores_sources [] [] 10 (by decide)

/-! ## The flow state machine (src/crews/main.py) -/

/-- Model of `ProjectInfo` (src/crews/main.py, lines 13-18): the pydantic state that
flows through `ThesisWritingFlow`.  All fields default to Python `None`;
`outline` is modelled as a `Json` value because the outliner stage assigns
the raw string output of the crew to it. -/
structure ProjectInfo where
  topic : Option String
  citation_style : Option String
  project_id : Option Int
  research_summary : Option String
  outline : Json
  deriving Repr

/-- One entry of `clean_outline` in `ThesisWritingFlow.writer`
(src/crews/main.py, lines 66-75 and 87-96): the full context handed to one
writer-crew invocation. -/
structure WriteUnit where
  topic : Option String
  citation_style : Option String
  sectionValue : Json
  research_summary : Option String
  outline : Json
  project_id : Option Int
  deriving Repr

/-- The inputs `ThesisWritingFlow.research` passes to the research crew
(src/crews/main.py, lines 31-37). -/
structure ResearchInputs where
  topic : Option String
  citation_style : Option String
  project_id : Option Int
  deriving Repr

/-- The inputs `ThesisWritingFlow.outliner` passes to the outline crew
(src/crews/main.py, lines 43-50). -/
structure OutlineInputs where
  topic : Option String
  citation_style : Option String
  research_summary : Option String
  project_id : Option Int
  deriving Repr

/-- Inputs of the research stage, read from the current flow state. -/
def researchInputsOf (st : ProjectInfo) : ResearchInputs :=
  ⟨st.topic, st.citation_style, st.project_id⟩

/-- Inputs of the outline stage, read from the current flow state. -/
def outlineInputsOf (st : ProjectInfo) : OutlineInputs :=
  ⟨st.topic, st.citation_style, st.research_summary, st.project_id⟩

/-- Model of `ThesisWritingFlow.research` (src/crews/main.py, lines 28-39): invokes
the research crew on {topic, citation_style, project_id} and assigns
`crew_result.raw` to `state.research_summary` — the only state mutation of
the stage.  `researchCrew` is the opaque generation call. -/
def research (researchCrew : ResearchInputs → String) (st : ProjectInfo) :
    ProjectInfo :=
  { st with research_summary := some (researchCrew (researchInputsOf st)) }

/-- Model of `ThesisWritingFlow.outliner` (src/crews/main.py, lines 41-52): invokes
the outline crew on {topic, citation_style, research_summary, project_id}
and assigns `crew_result.raw` (a string) to `state.outline` — the only
state mutation of the stage. -/
def outliner (outlineCrew : OutlineInputs → String) (st : ProjectInfo) :
    ProjectInfo :=
  { st with outline := .str (outlineCrew (outlineInputsOf st)) }

/-- Python `for section in sections:` over a loosely-typed value: lists
iterate their elements, strings their characters, dicts their keys;
iterating `None`, a bool or a number raises `TypeError`. -/
def pyIterList : Json → Except PyErr (List Json)
  | .arr xs => .ok xs
  | .str s => .ok (s.toList.map (fun c => .str (String.singleton c)))
  | .obj fields => .ok (fields.map (fun f => .str f.1))
  | _ => .error .typeError

/-- The synthetic fallback entry built on outline parse failure
(src/crews/main.py, lines 66-75): `section` is Python `None` and `outline`
is the state's raw outline value, verbatim. -/
def syntheticWriteUnit (st : ProjectInfo) : WriteUnit :=
  { topic := st.topic, citation_style := st.citation_style, sectionValue := .null,
    research_summary := st.research_summary, outline := st.outline,
    project_id := st.project_id }

/-- One fan-out entry for a single section (src/crews/main.py, lines
87-96): shared context plus the one section in focus. -/
def writeUnitFor (st : ProjectInfo) (outlineData : Json) (sectionValue : Json) :
    WriteUnit :=
  { topic := st.topic, citation_style := st.citation_style, sectionValue := sectionValue,
    research_summary := st.research_summary, outline := outlineData,
    project_id := st.project_id }

/-- Model of `outline_data.get("structure", []) if isinstance(outline_data, dict)
else []` (src/crews/main.py, lines 82-84). -/
def outlineSections (outlineData : Json) : Json :=
  match outlineData with
  | .obj fields => (lookupField fields "structure").getD (.arr [])
  | _ => .arr []

/-- The fan-out loop of `ThesisWritingFlow.writer` (src/crews/main.py,
lines 81-102): one `WriteUnit` per element of the `structure` value, in
source order. -/
def writerFanOut (st : ProjectInfo) (outlineData : Json) :
    Except PyErr (List WriteUnit) :=
  (pyIterList (outlineSections outlineData)).map
    (fun xs => xs.map (writeUnitFor st outlineData))

/-- Model of `ThesisWritingFlow.writer` (src/crews/main.py, lines 54-102): when the
outline is a string it is parsed; on parse failure a single synthetic unit
is produced and the writer crew is kicked off once with it; otherwise the
parsed (or already-structured) value is fanned out section by section.  The
returned list is the `inputs` list of `kickoff_for_each`, i.e. one element
per writer-crew invocation.  `parse` models `json.loads` (`none` = raises
`JSONDecodeError`). -/
def writer (parse : String → Option Json) (st : ProjectInfo) :
    Except PyErr (List WriteUnit) :=
  match st.outline with
  | .str s =>
    match parse s with
    | none => .ok [syntheticWriteUnit st]
    | some d => writerFanOut st d
  | d => writerFanOut st d

/-- The observable trace of one `ThesisWritingFlow` run: the state after
initialisation (`s0`), after the research stage (`s1`), after the outline
stage (`s2`), the inputs handed to each crew, and the writer fan-out units. -/
structure FlowTrace where
  s0 : ProjectInfo
  s1 : ProjectInfo
  s2 : ProjectInfo
  researchInputs : ResearchInputs
  outlineInputs : OutlineInputs
  writeUnits : Except PyErr (List WriteUnit)

/-- One full run of `ThesisWritingFlow` (src/crews/main.py): the flow is
kicked off with {topic, citation_style, project_id}, then runs
research → outliner → writer strictly in sequence; the writer stage reads
the state but never assigns to it. -/
def runFlow (researchCrew : ResearchInputs → String)
    (outlineCrew : OutlineInputs → String) (parse : String → Option Json)
    (topic citation_style : Option String) (project_id : Option Int) :
    FlowTrace :=
  let s0 : ProjectInfo :=
    { topic := topic, citation_style := citation_style,
      project_id := project_id, research_summary := none, outline := .null }
  let s1 := research researchCrew s0
  let s2 := outliner outlineCrew s1
  { s0 := s0, s1 := s1, s2 := s2, researchInputs := researchInputsOf s0,
    outlineInputs := outlineInputsOf s1, writeUnits := writer parse s2 }

/-- C1: the three stages run strictly in order.  `research_summary` is
`None` initially and is set exactly once, to the research crew's output,
before the outline stage runs; the outline crew's input carries that
`research_summary` together with the topic and citation style; `outline` is
`None` (null) until the outline stage sets it, exactly once, to the outline
crew's output; each stage's state update changes nothing else (record
updates), and the writer stage produces only fan-out units, never a new
state. -/
theorem c1_sequential_stages (researchCrew : ResearchInputs → String)
    (outlineCrew : OutlineInputs → String) (parse : String → Option Json)
    (topic citation_style : Option String) (project_id : Option Int) :
    let t := runFlow researchCrew outlineCrew parse topic citation_style
      project_id
    t.s0.research_summary = none ∧ t.s0.outline = .null ∧
    t.s1 = { t.s0 with
             research_summary := some (researchCrew (researchInputsOf t.s0)) } ∧
    t.s1.outline = .null ∧
    t.outlineInputs = { topic := topic,
                        citation_style := citation_style,
                        research_summary :=
                          some (researchCrew (researchInputsOf t.s0)),
                        project_id := project_id } ∧
    t.s2 = { t.s1 with
             outline := .str (outlineCrew (outlineInputsOf t.s1)) } ∧
    t.s2.research_summary = t.s1.research_summary ∧
    t.writeUnits = writer parse t.s2 :=
  ⟨rfl, rfl, rfl, rfl, rfl, rfl, rfl, rfl⟩

/-- C4: when the outline is a string that fails to parse, the writer stage
never raises and produces exactly one synthetic unit: `section` is `None`,
the raw outline text is carried verbatim in `outline`, and the topic,
citation style, research summary and project id are carried alongside; the
writer crew is then kicked off with exactly this one-element list. -/
theorem c4_unparsable_outline (parse : String → Option Json)
    (st : ProjectInfo) (s : String) (ho : st.outline = .str s)
    (hp : parse s = none) :
    writer parse st =
      .ok [{ topic := st.topic, citation_style := st.citation_style,
             sectionValue := .null, research_summary := st.research_summary,
             outline := .str s, project_id := st.project_id }] := by
  simp [writer, ho, hp, syntheticWriteUnit]

/-- Witness for `c4_unparsable_outline` at a concrete unparsable outline. -/
theorem c4_unparsable_outline_witness :
    writer (fun _ => none)
        { topic := some "t", citation_style := some "APA",
          project_id := some 1, research_summary := some "rs",
          outline := .str "not json" } =
      .ok [{ topic := some "t", citation_style := some "APA",
             sectionValue := .null, research_summary := some "rs",
             outline := .str "not json", project_id := some 1 }] :=
  c4_unparsable_outline (fun _ => none) _ "not json" rfl rfl

/-- C5 counterexample: an outline that is already a mapping but lacks a
`structure` list makes the fan-out produce an empty `clean_outline`, so the
writer crew is kicked off with zero units — not at least one. -/
theorem c5_counterexample :
    writer (fun _ => none)
        { topic := some "t", citation_style := some "APA",
          project_id := some 1, research_summary := some "rs",
          outline := .obj [] } = .ok [] ∧
    ¬ (1 ≤ (0 : Nat)) :=
  ⟨rfl, by decide⟩

/-- C5 amended: the at-least-one-unit guarantee holds only for the
unparsable-text fallback.  A string outline that fails to parse yields
exactly one (synthetic) unit, but a string outline parsing to a mapping
without a `structure` key, to a mapping whose `structure` list is empty, or
to a non-mapping (a JSON array) yields zero writer invocations. -/
theorem c5_write_unit_count (parse : String → Option Json)
    (st : ProjectInfo) (s : String) (ho : st.outline = .str s) :
    (parse s = none → writer parse st = .ok [syntheticWriteUnit st]) ∧
    (∀ fs, parse s = some (.obj fs) → lookupField fs "structure" = none →
      writer parse st = .ok []) ∧
    (∀ fs, parse s = some (.obj fs) →
      lookupField fs "structure" = some (.arr []) →
      writer parse st = .ok []) ∧
    (∀ xs, parse s = some (.arr xs) → writer parse st = .ok []) := by
  refine ⟨fun hp => by simp [writer, ho, hp], ?_, ?_, ?_⟩
  · intro fs hp hl
    simp [writer, ho, hp, writerFanOut, outlineSections, hl, pyIterList,
      Except.map]
  · intro fs hp hl
    simp [writer, ho, hp, writerFanOut, outlineSections, hl, pyIterList,
      Except.map]
  · intro xs hp
    simp [writer, ho, hp, writerFanOut, outlineSections, pyIterList,
      Except.map]

/-- Witness for `c5_write_unit_count`: a concrete unparsable outline gives
exactly one synthetic unit. -/
theorem c5_write_unit_count_witness :
    writer (fun _ => none)
        { topic := some "t", citation_style := some "c",
          project_id := some 2, research_summary := some "r",
          outline := .str "garbage" } =
      .ok [syntheticWriteUnit
            { topic := some "t", citation_style := some "c",
              project_id := some 2, research_summary := some "r",
              outline := .str "garbage" }] :=
  (c5_write_unit_count (fun _ => none) _ "garbage" rfl).1 rfl

/-- C6: for an outline whose `structure` field is a list of `n` sections
(whether the state's outline is already that mapping or is a string that
parses to it), the fan-out builds exactly `n` write units, in the order of
the `structure` list with no re-sorting; the i-th unit carries the i-th
section and every unit shares the identical context: topic, citation style,
research summary, the full (parsed) outline, and project id. -/
theorem c6_fanout_one_unit_per_section (parse : String → Option Json)
    (st : ProjectInfo) (s : String) (fs : List (String × Json))
    (secs : List Json)
    (ho : st.outline = .obj fs ∨ st.outline = .str s ∧ parse s = some (.obj fs))
    (hstruct : lookupField fs "structure" = some (.arr secs)) :
    ∃ units : List WriteUnit, writer parse st = .ok units ∧
      units.length = secs.length ∧
      ∀ i, i < secs.length →
        units.get? i = (secs.get? i).map (fun sec =>
          { topic := st.topic, citation_style := st.citation_style,
            sectionValue := sec, research_summary := st.research_summary,
            outline := .obj fs, project_id := st.project_id }) := by
  have hres : writer parse st = .ok (secs.map (writeUnitFor st (.obj fs))) := by
    rcases ho with ho | ⟨ho, hp⟩
    · simp [writer, ho, writerFanOut, outlineSections, hstruct, pyIterList,
        Except.map]
    · simp [writer, ho, hp, writerFanOut, outlineSections, hstruct,
        pyIterList, Except.map]
  refine ⟨secs.map (writeUnitFor st (.obj fs)), hres, by simp, ?_⟩
  intro i hi
  simp only [List.get?_eq_getElem?, List.getElem?_map]
  cases h : secs[i]? <;> simp [writeUnitFor]

/-- Witness for `c6_fanout_one_unit_per_section`: a two-section structured
outline yields exactly two units, in order. -/
theorem c6_fanout_witness :
    ∃ units : List WriteUnit,
      writer (fun _ => none)
          { topic := some "t", citation_style := some "c",
            project_id := some 3, research_summary := some "r",
            outline := .obj [("structure", .arr [.str "a", .str "b"])] } =
        .ok units ∧
      units.length = ([Json.str "a", Json.str "b"]).length ∧
      ∀ i, i < ([Json.str "a", Json.str "b"]).length →
        units.get? i = (([Json.str "a", Json.str "b"]).get? i).map (fun sec =>
          { topic := some "t", citation_style := some "c",
            sectionValue := sec, research_summary := some "r",
            outline := .obj [("structure", .arr [.str "a", .str "b"])],
            project_id := some 3 }) :=
  c6_fanout_one_unit_per_section (fun _ => none) _ "" _ _ (Or.inl rfl) rfl

/-! ## Write-stage persistence protocol (src/crews/writer.py) -/

/-- An observable event of the write stage: a writer-crew invocation
starting, the `project_section_save_tool` persistence call it makes (with
its `mark_completed` flag), and the invocation returning. -/
inductive WriteEvent where
  | invoke (i : Nat)
  | saveSection (i : Nat) (markCompleted : Bool)
  | ret (i : Nat)
  deriving DecidableEq, Repr

/-- Modelled from the spec: the `project_section_save_tool`
(`SectionSaveTool` in `crews/tools/project_model_tools.py`, a file that is
not present in the source tree) is invoked by the writing agent from inside
each writing invocation, after the section result is generated, per the
writing task's persistence requirement (src/crews/writer.py, lines
111-119): `mark_completed` is `false|true`, "set true when the final
section is done".  `kickoff_for_each` (src/crews/main.py, line 102) runs
the writer crew once per unit, sequentially.  The trace of a write stage
over `n` sections is therefore, for each `i` in order: the invocation
starts, saves its section with `mark_completed = (i = n-1)`, and returns. -/
def writeStageTrace (n : Nat) : List WriteEvent :=
  (List.range n).flatMap (fun i =>
    [.invoke i, .saveSection i (decide (i = n - 1)), .ret i])

/-- C7 counterexample: in a two-section run, the `mark_completed=true`
persistence call is made inside the last writing invocation — before that
invocation returns — so it is not made "only after all fan-out writing
invocations have returned": the final `ret` event lies strictly after the
flagged save. -/
theorem c7_counterexample :
    writeStageTrace 2 =
      [.invoke 0, .saveSection 0 false, .ret 0, .invoke 1] ++
        .saveSection 1 true :: [.ret 1] ∧
    WriteEvent.ret 1 ∉
      [WriteEvent.invoke 0, .saveSection 0 false, .ret 0, .invoke 1] :=
  ⟨rfl, by decide⟩

/-- C7 amended: for every run with at least one section, the
`mark_completed=true` persistence call is made exactly once, on the call
that persists the last section; it happens after every earlier invocation
has returned, but during (not after) the last invocation, which returns
immediately afterwards; no earlier section's save carries the flag. -/
theorem c7_completion_flag (n : Nat) (hn : 1 ≤ n) :
    ∃ pre : List WriteEvent,
      writeStageTrace n =
        pre ++ [.saveSection (n - 1) true, .ret (n - 1)] ∧
      (∀ j, j < n - 1 → WriteEvent.ret j ∈ pre) ∧
      (∀ j b, WriteEvent.saveSection j b ∈ pre → b = false) := by
  obtain ⟨m, rfl⟩ : ∃ m, n = m + 1 := ⟨n - 1, by omega⟩
  refine ⟨(List.range m).flatMap (fun i =>
    [.invoke i, .saveSection i (decide (i = m)), .ret i]) ++ [.invoke m],
    ?_, ?_, ?_⟩
  · simp only [writeStageTrace, List.range_succ, List.flatMap_append,
      Nat.add_sub_cancel, List.append_assoc]
    simp
  · intro j hj
    have hj' : j < m := by omega
    refine List.mem_append_left _ ?_
    exact List.mem_flatMap.mpr ⟨j, List.mem_range.mpr hj', by simp⟩
  · intro j b hb
    rcases List.mem_append.mp hb with h | h
    · rcases List.mem_flatMap.mp h with ⟨i, hi, hmem⟩
      simp at hmem
      obtain ⟨rfl, rfl⟩ := hmem
      simp
      exact Nat.ne_of_lt (List.mem_range.mp hi)
    · simp at h

/-! ## Fetch tools (src/crews/tools/main.py)

The network, `pdfplumber` and `BeautifulSoup` are external collaborators:
their behaviour at one call is modelled as an explicit outcome value
(success payloads or the exception they raise).  Each tool's `_run` is then
a total function of those outcomes; an uncaught exception would surface as
an `Except.error`. -/

/-- Characters lowered as by Python `str.lower()` (ASCII range suffices for
the literals compared in the source). -/
def lowerChars (l : List Char) : List Char := l.map Char.toLower

/-- Python `needle in haystack` on strings, over character lists. -/
def containsSublist (needle : List Char) : List Char → Bool
  | [] => needle.isEmpty
  | a :: rest => needle.isPrefixOf (a :: rest) || containsSublist needle rest

/-- Outcome of `requests.get(pdf_url, ...)` plus `raise_for_status()`
(src/crews/tools/main.py, lines 47-50). -/
inductive PdfDownload where
  | timeout
  | requestExc (msg : String)
  | downloaded (contentType : String)
  deriving Repr

/-- Outcome of the `pdfplumber` extraction block (src/crews/tools/main.py,
lines 57-83): either some exception, or the assembled page/table text. -/
inductive PdfExtract where
  | raises (msg : String)
  | extracted (text : String)
  deriving Repr

/-- The Python exceptions the PDF reader's `except` clauses speak about. -/
inductive PyNetErr where
  | timeout
  | requestException (msg : String)
  | otherException (msg : String)
  deriving DecidableEq, Repr

/-- The `try` body of `EnhancedPDFReaderTool._run` (src/crews/tools/main.py,
lines 45-88), with raised exceptions made explicit. -/
def pdfReaderBody (pdf_url : String) (download : PdfDownload)
    (extract : PdfExtract) : Except PyNetErr String :=
  match download with
  | .timeout => .error .timeout
  | .requestExc m => .error (.requestException m)
  | .downloaded contentType =>
    if !containsSublist "application/pdf".toList (lowerChars contentType.toList)
        && !(".pdf".toList.isSuffixOf (lowerChars pdf_url.toList)) then
      .ok ("Error: URL does not appear to point to a PDF file. Content-Type: "
        ++ contentType)
    else
      match extract with
      | .raises m => .error (.otherException m)
      | .extracted t =>
        if t.trim = "" then
          .ok "Warning: PDF was read successfully but no text content was extracted. The PDF might be image-based or scanned."
        else .ok t.trim

/-- The `except` clauses of `EnhancedPDFReaderTool._run`
(src/crews/tools/main.py, lines 90-95): `Timeout`, then
`RequestException`, then the catch-all `Exception`. -/
def pdfReaderHandle (pdf_url : String) : PyNetErr → Option String
  | .timeout =>
    some ("Error: Request timed out while trying to download PDF from "
      ++ pdf_url)
  | .requestException m => some ("Error downloading PDF: " ++ m)
  | .otherException m => some ("Error processing PDF: " ++ m)

/-- Model of `EnhancedPDFReaderTool._run` (src/crews/tools/main.py, lines 30-95):
the import guard, then the `try` body with its handlers.  An exception no
handler catches would propagate as `.error`. -/
def pdfReaderRun (pdf_url : String) (pdfplumberInstalled : Bool)
    (download : PdfDownload) (extract : PdfExtract) :
    Except PyNetErr String :=
  if !pdfplumberInstalled then
    .ok "Error: pdfplumber is not installed. Install it with: pip install pdfplumber"
  else
    match pdfReaderBody pdf_url download extract with
    | .ok s => .ok s
    | .error e =>
      match pdfReaderHandle pdf_url e with
      | some s => .ok s
      | none => .error e

/-- Python `line.strip()` over character lists. -/
def stripChars (l : List Char) : List Char :=
  ((l.dropWhile Char.isWhitespace).reverse.dropWhile Char.isWhitespace).reverse

/-- Python `line.startswith((p1, p2, ...))`. -/
def startsWithAny (l : List Char) (ps : List (List Char)) : Bool :=
  ps.any (fun p => p.isPrefixOf l)

/-- The line filter of `_clean_text` (src/crews/tools/main.py, lines
297-302): keep lines longer than 15 characters that are not all digits,
not URLs and not navigation phrases. -/
def keepLine (line : List Char) : Bool :=
  15 < line.length
    && !(!line.isEmpty && line.all Char.isDigit)
    && !startsWithAny line
        ["http://".toList, "https://".toList, "www.".toList]
    && !startsWithAny (lowerChars line)
        ["click here".toList, "read more".toList, "learn more".toList,
         "view all".toList]

/-- Python `text.split()` (no argument): split on whitespace runs,
discarding empty fields. -/
def pySplitWhitespace (l : List Char) : List (List Char) :=
  (l.splitOnP Char.isWhitespace).filter (fun w => !w.isEmpty)

/-- Model of `BrightDataWebUnlockerTool._clean_text` (src/crews/tools/main.py,
lines 289-308): split into lines, strip each, keep the substantial ones,
re-join with newlines, then collapse every whitespace run to one space. -/
def cleanText (text : List Char) : List Char :=
  let lines := List.splitOn '\n' text
  let cleaned_lines := (lines.map stripChars).filter keepLine
  let result := List.intercalate ['\n'] cleaned_lines
  List.intercalate [' '] (pySplitWhitespace result)

/-- Python `truncated.rfind(c)`: index of the last occurrence, `-1` when
absent. -/
def rfindChar (l : List Char) (c : Char) : Int :=
  match l with
  | [] => -1
  | a :: rest =>
    let r := rfindChar rest c
    if 0 ≤ r then r + 1 else if a = c then 0 else -1

/-- The appended notice of `_truncate_intelligently`
(src/crews/tools/main.py, line 330). -/
def truncationNotice (fromLen toLen : Nat) : List Char :=
  ("\n\n[Content truncated from " ++ toString fromLen ++ " to "
    ++ toString toLen ++ " characters]").toList

/-- Model of `BrightDataWebUnlockerTool._truncate_intelligently`
(src/crews/tools/main.py, lines 310-330).  Python compares
`truncate_at > max_length * 0.8` with real arithmetic; for integer
`truncate_at` this is exactly `5 * truncate_at > 4 * max_length`. -/
def truncateIntelligently (text : List Char) (max_length : Nat) : List Char :=
  if text.length ≤ max_length then text
  else
    let truncated := text.take max_length
    let last_period := rfindChar truncated '.'
    let last_exclamation := rfindChar truncated '!'
    let last_question := rfindChar truncated '?'
    let last_newline := rfindChar truncated '\n'
    let truncate_at :=
      max (max (max last_period last_exclamation) last_question) last_newline
    let truncated2 :=
      if 4 * (max_length : Int) < 5 * truncate_at then
        truncated.take (truncate_at.toNat + 1)
      else truncated
    truncated2 ++ truncationNotice text.length truncated2.length

/-- The content-length guard of `BrightDataWebUnlockerTool._run`
(src/crews/tools/main.py, lines 234-239 and 275-278): `max_length = 15000`. -/
def limitContent (cleaned : List Char) : List Char :=
  if 15000 < cleaned.length then truncateIntelligently cleaned 15000
  else cleaned

/-- Outcome of the BrightData API attempt (src/crews/tools/main.py, lines
173-229): either some exception during the request/parse, or a response
with a status code, its body text, and the page text BeautifulSoup
extracts from it. -/
inductive ApiAttempt where
  | raises (msg : String)
  | response (statusCode : Nat) (bodyText : String) (pageText : String)
  deriving Repr

/-- Outcome of the fallback `requests.get` attempt
(src/crews/tools/main.py, lines 246-281). -/
inductive FallbackAttempt where
  | raises (msg : String)
  | response (statusCode : Nat) (pageText : String)
  deriving Repr

/-- The outer `try` body of `BrightDataWebUnlockerTool._run`: non-200 API
responses return an error string; 200 responses are cleaned and
length-limited. -/
def brightDataBody (api : ApiAttempt) : Except String String :=
  match api with
  | .raises m => .error m
  | .response code bodyText pageText =>
    if code ≠ 200 then
      .ok ("BrightData API Error " ++ toString code ++ ": " ++ bodyText)
    else
      .ok (String.mk (limitContent (cleanText pageText.toList)))

/-- The fallback scraping block (src/crews/tools/main.py, lines 246-281):
403/404/other non-200 statuses return message strings; success is cleaned
and length-limited. -/
def brightDataFallback (url : String) (fb : FallbackAttempt) :
    Except String String :=
  match fb with
  | .raises m => .error m
  | .response code pageText =>
    if code = 403 then
      .ok ("Access denied (403 Forbidden) for " ++ url
        ++ ". This site may require special access or be protected against automated requests.")
    else if code = 404 then
      .ok ("Page not found (404) for " ++ url ++ ".")
    else if code ≠ 200 then
      .ok ("HTTP " ++ toString code ++ " error for " ++ url ++ ".")
    else
      .ok (String.mk (limitContent (cleanText pageText.toList)))

/-- Model of `BrightDataWebUnlockerTool._run` (src/crews/tools/main.py, lines
167-287): the API attempt; on any exception, the fallback attempt; if the
fallback raises too, a combined error string is returned. -/
def brightDataRun (url : String) (api : ApiAttempt)
    (fb : FallbackAttempt) : Except String String :=
  match brightDataBody api with
  | .ok s => .ok s
  | .error e =>
    match brightDataFallback url fb with
    | .ok s => .ok s
    | .error fe =>
      .ok ("Error unlocking website: " ++ e ++ " (Fallback also failed: "
        ++ fe ++ ")")

/-- Witness for `c7_completion_flag` at a one-section run. -/
theorem c7_completion_flag_witness :
    ∃ pre : List WriteEvent,
      writeStageTrace 1 = pre ++ [.saveSection 0 true, .ret 0] ∧
      (∀ j, j < 0 → WriteEvent.ret j ∈ pre) ∧
      (∀ j b, WriteEvent.saveSection j b ∈ pre → b = false) :=
  c7_completion_flag 1 (by decide)

/-- C8: both fetch tools are total: for every URL and every outcome of the
underlying network request and content processing (timeout, request
exception, non-PDF content, processing exception, non-200 status, fallback
failure, ...) `_run` returns a string (`.ok`) and never propagates an
exception; in the failure cases that string is the error description built
by the corresponding handler or branch. -/
theorem c8_fetch_tools_never_raise :
    (∀ (url : String) (installed : Bool) (download : PdfDownload)
        (extract : PdfExtract),
      ∃ s, pdfReaderRun url installed download extract = .ok s) ∧
    (∀ (url : String) (api : ApiAttempt) (fb : FallbackAttempt),
      ∃ s, brightDataRun url api fb = .ok s) ∧
    (∀ (url : String) (extract : PdfExtract),
      pdfReaderRun url true .timeout extract =
        .ok ("Error: Request timed out while trying to download PDF from "
          ++ url)) ∧
    (∀ (url : String) (extract : PdfExtract) (m : String),
      pdfReaderRun url true (.requestExc m) extract =
        .ok ("Error downloading PDF: " ++ m)) ∧
    (∀ m : String,
      pdfReaderRun "http://x.example/doc.pdf" true (.downloaded "text/html")
          (.raises m) =
        .ok ("Error processing PDF: " ++ m)) ∧
    (∀ fb : FallbackAttempt,
      brightDataRun "http://x.example" (.response 500 "boom" "") fb =
        .ok "BrightData API Error 500: boom") ∧
    brightDataRun "http://x.example" (.raises "api down") (.response 403 "")
      = .ok "Access denied (403 Forbidden) for http://x.example. This site may require special access or be protected against automated requests." ∧
    brightDataRun "http://x.example" (.raises "api down") (.response 404 "")
      = .ok "Page not found (404) for http://x.example." ∧
    brightDataRun "http://x.example" (.raises "api down") (.raises "no net")
      = .ok "Error unlocking website: api down (Fallback also failed: no net)" := by
  refine ⟨?_, ?_, fun url extract => rfl, fun url extract m => rfl,
    fun m => rfl, fun fb => rfl, rfl, rfl, rfl⟩
  · intro url installed download extract
    cases installed
    · exact ⟨_, rfl⟩
    · cases h : pdfReaderBody url download extract with
      | ok s => exact ⟨s, by simp [pdfReaderRun, h]⟩
      | error e =>
        cases e with
        | timeout =>
          exact ⟨"Error: Request timed out while trying to download PDF from "
            ++ url, by simp [pdfReaderRun, h, pdfReaderHandle]⟩
        | requestException m =>
          exact ⟨"Error downloading PDF: " ++ m,
            by simp [pdfReaderRun, h, pdfReaderHandle]⟩
        | otherException m =>
          exact ⟨"Error processing PDF: " ++ m,
            by simp [pdfReaderRun, h, pdfReaderHandle]⟩
  · intro url api fb
    cases hb : brightDataBody api with
    | ok s => exact ⟨s, by simp [brightDataRun, hb]⟩
    | error e =>
      cases hf : brightDataFallback url fb with
      | ok s => exact ⟨s, by simp [brightDataRun, hb, hf]⟩
      | error fe =>
        exact ⟨"Error unlocking website: " ++ e ++ " (Fallback also failed: "
          ++ fe ++ ")", by simp [brightDataRun, hb, hf]⟩

/-! ## Project status (src/projects/models.py) -/

/-- Model of `Project.STATUS_CHOICES` (src/projects/models.py, lines 8-15). -/
def STATUS_CHOICES : List (String × String) :=
  [("draft", "Draft"), ("researching", "Researching"),
   ("outlined", "Outlined"), ("writing", "Writing"),
   ("completed", "Completed"), ("failed", "Failed")]

/-- The admissible persisted status values: the first components of
`STATUS_CHOICES`, the domain of the `status` field. -/
def projectStatuses : List String := STATUS_CHOICES.map Prod.fst

/-- The `default="draft"` of the `status` field (src/projects/models.py,
line 35): the status a newly created project starts in. -/
def projectStatusDefault : String := "draft"

/-- C9 counterexample: a newly created project starts in status `draft`,
not `pending`; indeed `pending` is not a status value of the model at all. -/
theorem c9_counterexample :
    projectStatusDefault = "draft" ∧ projectStatusDefault ≠ "pending" ∧
      "pending" ∉ projectStatuses := by
  refine ⟨rfl, by decide, by decide⟩

/-- C9 amended: the status enum admits exactly the six values draft,
researching, outlined, writing, completed, failed, and a newly created
project starts in the default status `draft` (which is one of them); there
is no `pending` state. -/
theorem c9_status_enum :
    projectStatuses =
      ["draft", "researching", "outlined", "writing", "completed", "failed"] ∧
    projectStatusDefault ∈ projectStatuses ∧
    projectStatusDefault = "draft" := by
  refine ⟨rfl, by decide, rfl⟩

/-! ## Length bound of the scraped content (C10) -/

/-- The `rfind` result is an index strictly below the list length. -/
theorem rfindChar_lt_length (l : List Char) (c : Char) :
    rfindChar l c < (l.length : Int) := by
  induction l with
  | nil => simp [rfindChar]
  | cons a rest ih =>
    simp only [rfindChar, List.length_cons]
    split
    · push_cast
      omega
    · split <;> push_cast <;> omega

/-- When `rfind` finds an occurrence, the character at the returned index
is the sought one. -/
theorem rfindChar_found (l : List Char) (c : Char)
    (h : 0 ≤ rfindChar l c) : l[(rfindChar l c).toNat]? = some c := by
  induction l with
  | nil => simp [rfindChar] at h
  | cons a rest ih =>
    simp only [rfindChar] at h ⊢
    by_cases hr : 0 ≤ rfindChar rest c
    · rw [if_pos hr] at h ⊢
      have h1 : (rfindChar rest c + 1).toNat = (rfindChar rest c).toNat + 1 := by
        omega
      rw [h1]
      simpa using ih hr
    · rw [if_neg hr] at h ⊢
      by_cases hac : a = c
      · simp [hac]
      · simp [hac] at h

/-- The four candidate boundary positions of `_truncate_intelligently`,
combined by `max` as in the source (rfind of `.`, `!`, `?`, newline over
the truncated text). -/
def truncAtVal (text : List Char) (m : Nat) : Int :=
  max (max (max (rfindChar (text.take m) '.') (rfindChar (text.take m) '!'))
    (rfindChar (text.take m) '?')) (rfindChar (text.take m) '\n')

/-- Unfolded form of `truncateIntelligently` in terms of `truncAtVal`. -/
theorem truncateIntelligently_eq (text : List Char) (m : Nat) :
    truncateIntelligently text m =
      if text.length ≤ m then text
      else
        (if 4 * (m : Int) < 5 * truncAtVal text m then
          (text.take m).take ((truncAtVal text m).toNat + 1)
         else text.take m) ++
        truncationNotice text.length
          (if 4 * (m : Int) < 5 * truncAtVal text m then
            (text.take m).take ((truncAtVal text m).toNat + 1)
           else text.take m).length := rfl

/-- The boundary `truncAtVal` is one of the four `rfind` results. -/
theorem truncAtVal_found (text : List Char) (m : Nat)
    (h : 0 ≤ truncAtVal text m) :
    ∃ c, c ∈ ['.', '!', '?', '\n'] ∧
      (text.take m)[(truncAtVal text m).toNat]? = some c := by
  unfold truncAtVal at h ⊢
  rcases max_choice
      (max (max (rfindChar (text.take m) '.') (rfindChar (text.take m) '!'))
        (rfindChar (text.take m) '?')) (rfindChar (text.take m) '\n')
    with h1 | h1 <;> rw [h1] at h ⊢
  · rcases max_choice
        (max (rfindChar (text.take m) '.') (rfindChar (text.take m) '!'))
        (rfindChar (text.take m) '?') with h2 | h2 <;> rw [h2] at h ⊢
    · rcases max_choice (rfindChar (text.take m) '.')
          (rfindChar (text.take m) '!') with h3 | h3 <;> rw [h3] at h ⊢
      · exact ⟨'.', by simp, rfindChar_found _ _ h⟩
      · exact ⟨'!', by simp, rfindChar_found _ _ h⟩
    · exact ⟨'?', by simp, rfindChar_found _ _ h⟩
  · exact ⟨'\n', by simp, rfindChar_found _ _ h⟩

/-- The boundary `truncAtVal` lies below the truncated length. -/
theorem truncAtVal_lt (text : List Char) (m : Nat) :
    truncAtVal text m < (((text.take m).length : Nat) : Int) := by
  unfold truncAtVal
  simp only [max_lt_iff]
  exact ⟨⟨⟨rfindChar_lt_length _ _, rfindChar_lt_length _ _⟩,
    rfindChar_lt_length _ _⟩, rfindChar_lt_length _ _⟩

/-- C10: for every successfully fetched page, when the cleaned content
exceeds 15000 characters the tool truncates it: the 200-status result of
`_run` is `limitContent` of the cleaned page text, and over-long cleaned
content becomes a kept part of at most 15000 characters (a prefix of the
content — either the plain 15000-character cut, or a cut back to a `.`,
`!`, `?` or newline boundary lying in the final 20% of the limit) followed
by the bracketed notice stating the original and truncated lengths. -/
theorem c10_scrape_length_bound (cleaned : List Char)
    (h : 15000 < cleaned.length) :
    (∃ kept : List Char,
      limitContent cleaned =
        kept ++ truncationNotice cleaned.length kept.length ∧
      kept.length ≤ 15000 ∧
      kept <+: cleaned ∧
      (kept = cleaned.take 15000 ∨
        ∃ b : Nat, 4 * 15000 < 5 * b ∧ b < 15000 ∧
          cleaned[b]? ∈ [some '.', some '!', some '?', some '\n'] ∧
          kept = cleaned.take (b + 1))) ∧
    ∀ (url bodyText : String) (fb : FallbackAttempt) (pageText : String),
      brightDataRun url (.response 200 bodyText pageText) fb =
        .ok (String.mk (limitContent (cleanText pageText.toList))) := by
  refine ⟨?_, fun url bodyText fb pageText => rfl⟩
  have hlim : limitContent cleaned = truncateIntelligently cleaned 15000 := by
    simp [limitContent, h]
  have hlen : (cleaned.take 15000).length = 15000 := by
    simp only [List.length_take]
    omega
  rw [hlim, truncateIntelligently_eq, if_neg (by omega)]
  by_cases hc : 4 * ((15000 : Nat) : Int) < 5 * truncAtVal cleaned 15000
  · rw [if_pos hc]
    have h0 : 0 ≤ truncAtVal cleaned 15000 := by omega
    have hTlt : truncAtVal cleaned 15000 < ((15000 : Nat) : Int) := by
      have := truncAtVal_lt cleaned 15000
      rwa [hlen] at this
    obtain ⟨c, hcmem, hcget⟩ := truncAtVal_found cleaned 15000 h0
    have hb1 : (truncAtVal cleaned 15000).toNat + 1 ≤ 15000 := by omega
    have htake : (cleaned.take 15000).take
        ((truncAtVal cleaned 15000).toNat + 1) =
        cleaned.take ((truncAtVal cleaned 15000).toNat + 1) := by
      rw [List.take_take]
      have hm : ((truncAtVal cleaned 15000).toNat + 1) ⊓ 15000 =
          (truncAtVal cleaned 15000).toNat + 1 := by omega
      rw [hm]
    refine ⟨(cleaned.take 15000).take ((truncAtVal cleaned 15000).toNat + 1),
      rfl, ?_, ?_, Or.inr ⟨(truncAtVal cleaned 15000).toNat, ?_, ?_, ?_, ?_⟩⟩
    · simp only [List.length_take]
      omega
    · rw [htake]
      exact List.take_prefix _ _
    · omega
    · omega
    · have hget : cleaned[(truncAtVal cleaned 15000).toNat]? = some c := by
        rw [← hcget, List.getElem?_take, if_pos (by omega)]
      rw [hget]
      simp only [List.mem_cons, List.not_mem_nil, or_false] at hcmem ⊢
      rcases hcmem with rfl | rfl | rfl | rfl
      · exact Or.inl rfl
      · exact Or.inr (Or.inl rfl)
      · exact Or.inr (Or.inr (Or.inl rfl))
      · exact Or.inr (Or.inr (Or.inr rfl))
    · exact htake.symm ▸ rfl
  · rw [if_neg hc]
    exact ⟨cleaned.take 15000, rfl, by omega, List.take_prefix _ _,
      Or.inl rfl⟩

/-- Witness for `c10_scrape_length_bound` at a concrete over-long cleaned
content (15001 characters). -/
theorem c10_scrape_length_bound_witness :
    (∃ kept : List Char,
      limitContent (List.replicate 15001 'a') =
        kept ++ truncationNotice (List.replicate 15001 'a').length
          kept.length ∧
      kept.length ≤ 15000 ∧
      kept <+: List.replicate 15001 'a' ∧
      (kept = (List.replicate 15001 'a').take 15000 ∨
        ∃ b : Nat, 4 * 15000 < 5 * b ∧ b < 15000 ∧
          (List.replicate 15001 'a')[b]? ∈
            [some '.', some '!', some '?', some '\n'] ∧
          kept = (List.replicate 15001 'a').take (b + 1))) ∧
    ∀ (url bodyText : String) (fb : FallbackAttempt) (pageText : String),
      brightDataRun url (.response 200 bodyText pageText) fb =
        .ok (String.mk (limitContent (cleanText pageText.toList))) :=
  c10_scrape_length_bound (List.replicate 15001 'a')
    (by rw [List.length_replicate]; omega)

end DocsWriter
